import Mathlib

/-!
Shallow embedding of `src/app.py` (a Flask + Firestore progress-log service)
and proofs about its behaviour.

Modelling conventions:
* A Firestore document of the `progress_logs` collection is a `ProgressDoc`;
  the collection itself is a `List ProgressDoc` (stream order is the list
  order; the claims only involve membership and exactness, not ordering).
  The store-assigned `created_at` timestamp is not modelled: no claim
  mentions it.
* JSON request bodies are modelled as six optional string fields
  (`Option String`): `none` models `f not in data`; values are taken to be
  JSON strings, so Python's `str(v)` is the identity on them.
* Python's `str.strip()` is `pyStrip` (ASCII whitespace set, which covers
  every input occurring in the claims), `str.lower()` is `pyLower`
  (ASCII case folding, ditto).
* Python truthiness of an optional string, as in the `if email:` tests,
  is `pyTruthy` (None and the empty string are falsy).
* HTTP responses are records of the status code plus the JSON payload
  pieces the claims mention.
-/

/-- Characters stripped by Python `str.strip()` (ASCII part). -/
def isPySpace (c : Char) : Bool :=
  c = ' ' || c = '\t' || c = '\n' || c = '\r' || c = '\x0b' || c = '\x0c'

/-- Python `str.strip()` on the character list: drop leading and trailing whitespace. -/
def stripChars (l : List Char) : List Char :=
  ((l.dropWhile isPySpace).reverse.dropWhile isPySpace).reverse

/-- Python `s.strip()`. -/
def pyStrip (s : String) : String :=
  ⟨stripChars s.data⟩

/-- Python `s.lower()` (ASCII case folding). -/
def pyLower (s : String) : String :=
  ⟨s.data.map Char.toLower⟩

/-- Python truthiness of `request.args.get(...)` / an optional string:
`None` and `""` are falsy, every other string is truthy. -/
def pyTruthy : Option String → Bool
  | none => false
  | some s => !(s == "")

/-- Python `c in s` on a string: membership of the character in the
character list (`"@" in data["email"]` at src/app.py:134). -/
def pyIn (c : Char) (s : String) : Bool :=
  s.data.contains c

/-- One document of the `progress_logs` collection, with the six string
fields written by `add_progress_row` (`created_at` omitted, see above). -/
structure ProgressDoc where
  email : String
  student_id : String
  week : String
  exercise : String
  status : String
  feedback : String
deriving DecidableEq, Repr

/-- A JSON request body for `POST /log`: each required field is either
absent (`none`) or a JSON string. -/
structure ReqBody where
  email : Option String
  student_id : Option String
  week : Option String
  exercise : Option String
  status : Option String
  feedback : Option String
deriving DecidableEq, Repr

/-- The list `required = ["email", "student_id", "week", "exercise", "status", "feedback"]`
from `log_progress`. -/
def requiredFields : List String :=
  ["email", "student_id", "week", "exercise", "status", "feedback"]

/-- Lookup `data[f]` on the modelled body. -/
def getField (d : ReqBody) : String → Option String
  | "email" => d.email
  | "student_id" => d.student_id
  | "week" => d.week
  | "exercise" => d.exercise
  | "status" => d.status
  | "feedback" => d.feedback
  | _ => none

/-- The test `f not in data or not str(data[f]).strip()` for one field value. -/
def missingOrEmpty : Option String → Bool
  | none => true
  | some v => pyStrip v == ""

/-- The first required field that is missing or empty, in the order the
`for f in required` loop visits them (`none` when validation passes). -/
def firstMissing (d : ReqBody) : Option String :=
  requiredFields.find? (fun f => missingOrEmpty (getField d f))

/-- Function `add_progress_row` (src/app.py:50-65): the document written to the
collection, with write-side normalization — `email.strip().lower()`,
`student_id.strip()`, `week.strip().lower()`, the rest `.strip()`. -/
def add_progress_row (data : ReqBody) : ProgressDoc where
  email := pyLower (pyStrip (data.email.getD ""))
  student_id := pyStrip (data.student_id.getD "")
  week := pyLower (pyStrip (data.week.getD ""))
  exercise := pyStrip (data.exercise.getD "")
  status := pyStrip (data.status.getD "")
  feedback := pyStrip (data.feedback.getD "")

/-- Function `query_logs` (src/app.py:67-82): chain an equality filter for each
truthy argument, with query-side normalization mirroring the write side. -/
def query_logs (col : List ProgressDoc) (email student_id week : Option String) :
    List ProgressDoc :=
  col.filter fun d =>
    (if pyTruthy email then d.email == pyLower (pyStrip (email.getD "")) else true) &&
    (if pyTruthy student_id then d.student_id == pyStrip (student_id.getD "") else true) &&
    (if pyTruthy week then d.week == pyLower (pyStrip (week.getD "")) else true)

/-- The JSON payload of `GET /logs` (src/app.py:148-167). -/
structure LogsResponse where
  status : Nat
  logs : List ProgressDoc
  total_count : Nat
  filters_email : Option String
  filters_student_id : Option String
  filters_week : Option String
deriving DecidableEq, Repr

/-- Handler `get_logs_route` (src/app.py:148-167): read the three query parameters
(`none` = absent), run `query_logs`, answer 200 with logs, their count and
the filters echoed. -/
def get_logs_route (col : List ProgressDoc) (email student_id week : Option String) :
    LogsResponse where
  status := 200
  logs := query_logs col email student_id week
  total_count := (query_logs col email student_id week).length
  filters_email := email
  filters_student_id := student_id
  filters_week := week

/-- An HTTP status code together with the `error` field of the JSON body
(`none` when the response carries no error). -/
structure HttpResponse where
  status : Nat
  error : Option String
deriving DecidableEq, Repr

/-- The set `valid_statuses` from `log_progress` (src/app.py:137); membership only
triggers `logging.warning`, never a rejection. -/
def valid_statuses : List String :=
  ["completed", "in_progress", "not_started", "submitted", "reviewed"]

/-- Handler `log_progress` (src/app.py:118-146), the `POST /log` handler: reject
non-JSON bodies (400), then the first missing/empty required field (400
naming it), then an email without a `@` (400); otherwise append the
normalized document and answer 201.  Returns the response together with
the collection after the request. -/
def log_progress (isJson : Bool) (data : ReqBody) (col : List ProgressDoc) :
    HttpResponse × List ProgressDoc :=
  if isJson = false then
    (⟨400, some "Content-Type must be application/json"⟩, col)
  else
    match firstMissing data with
    | some f => (⟨400, some ("Missing or empty required field: " ++ f)⟩, col)
    | none =>
      if pyIn '@' (data.email.getD "") = false then
        (⟨400, some "Invalid email format"⟩, col)
      else
        -- the status check at src/app.py:137-139 only logs a warning
        (⟨201, none⟩, col ++ [add_progress_row data])

/-- The loop state of `clear_all_logs`: the current uncommitted batch, the
batches committed so far, and the running `count`. -/
structure ClearState where
  batch : List ProgressDoc
  committed : List (List ProgressDoc)
  count : Nat
deriving DecidableEq, Repr

/-- One iteration of the `for d in ...stream()` loop of `clear_all_logs`
(src/app.py:95-100): stage the delete, bump `count`, and commit/reset the
batch whenever `count % 450 == 0`. -/
def clearStep (s : ClearState) (d : ProgressDoc) : ClearState :=
  if (s.count + 1) % 450 == 0 then ⟨[], s.committed ++ [s.batch ++ [d]], s.count + 1⟩
  else ⟨s.batch ++ [d], s.committed, s.count + 1⟩

/-- Function `clear_all_logs` (src/app.py:88-102): stream every document, staging
deletes in batches committed every 450 ops, with a final commit of the
leftover batch after the loop.  Returns the list of committed batches (in
commit order, the last one being the final `batch.commit()`) and the
returned `count`. -/
def clear_all_logs (col : List ProgressDoc) : List (List ProgressDoc) × Nat :=
  ((col.foldl clearStep ⟨[], [], 0⟩).committed ++ [(col.foldl clearStep ⟨[], [], 0⟩).batch],
    (col.foldl clearStep ⟨[], [], 0⟩).count)

/-- Constant `DELETE_SECRET` (src/app.py:22), the env-var default. -/
def DELETE_SECRET : String := "SECRET123"

/-- The `DELETE /logs` response: status, `error` field, and the count in
the success message `All progress logs cleared (N docs)` (`none` when the
response is not a success). -/
structure DeleteResponse where
  status : Nat
  error : Option String
  deleted : Option Nat
deriving DecidableEq, Repr

/-- Handler `delete_logs` (src/app.py:193-212): 400 when the `key` parameter is
falsy (absent or empty), 403 when it differs from `DELETE_SECRET`,
otherwise run `clear_all_logs` — which stages a delete for every streamed
document and commits every batch, leaving the collection empty — and
answer 200 reporting the count.  Returns the response and the collection
after the request. -/
def delete_logs (col : List ProgressDoc) (key : Option String) :
    DeleteResponse × List ProgressDoc :=
  if pyTruthy key = false then
    (⟨400, some "Secret key required", none⟩, col)
  else if (key.getD "" == DELETE_SECRET) = false then
    (⟨403, some "Invalid secret key", none⟩, col)
  else
    (⟨200, none, some (clear_all_logs col).2⟩, [])

/-- Written from the words of the filtering claim (not from the code), for
the refinement comparison: a stored entry matches when, for every supplied
filter value, the entry's normalized field equals the normalized value
(AND semantics); `student_id` is normalized without case folding, matching
the write side. -/
def claimMatches (email student_id week : Option String) (d : ProgressDoc) : Bool :=
  (match email with
    | none => true
    | some e => d.email == pyLower (pyStrip e)) &&
  (match student_id with
    | none => true
    | some s => d.student_id == pyStrip s) &&
  (match week with
    | none => true
    | some w => d.week == pyLower (pyStrip w))

/-- The amended filtering predicate: as `claimMatches`, except that a
filter supplied with the empty string is ignored (the handler tests Python
truthiness, so `""` applies no constraint). -/
def claimMatchesAmended (email student_id week : Option String) (d : ProgressDoc) : Bool :=
  (match email with
    | none => true
    | some e => if e == "" then true else d.email == pyLower (pyStrip e)) &&
  (match student_id with
    | none => true
    | some s => if s == "" then true else d.student_id == pyStrip s) &&
  (match week with
    | none => true
    | some w => if w == "" then true else d.week == pyLower (pyStrip w))

/-- A sample stored document, used for concrete evaluations. -/
def sampleDoc : ProgressDoc where
  email := "a@b.c"
  student_id := "s1"
  week := "w1"
  exercise := "ex"
  status := "completed"
  feedback := "fb"

/-- A sample valid request body (every field present and non-empty, email
contains `@`), with mixed case and padding to exercise normalization. -/
def sampleBody : ReqBody where
  email := some " A@B.C "
  student_id := some " S1 "
  week := some " W1 "
  exercise := some "Ex"
  status := some "completed"
  feedback := some "fb"

/-- A body whose `email` field is absent. -/
def bodyMissing : ReqBody where
  email := none
  student_id := some "s1"
  week := some "w1"
  exercise := some "ex"
  status := some "completed"
  feedback := some "fb"

/-- A body that is complete but whose email lacks a `@`. -/
def bodyNoAt : ReqBody where
  email := some "abc"
  student_id := some "s1"
  week := some "w1"
  exercise := some "ex"
  status := some "completed"
  feedback := some "fb"

/-- A complete, valid body whose status is outside `valid_statuses`. -/
def bodyWeird : ReqBody where
  email := some "a@b.c"
  student_id := some "s1"
  week := some "w1"
  exercise := some "ex"
  status := some "WIP"
  feedback := some "fb"

lemma pyLower_eq_empty {s : String} (h : pyLower s = "") : s = "" := by
  cases s with
  | mk l =>
    have hd : l.map Char.toLower = [] := congrArg String.data h
    have hl : l = [] := List.map_eq_nil_iff.1 hd
    rw [hl]

lemma missingOrEmpty_false_strip {o : Option String}
    (h : missingOrEmpty o = false) : pyStrip (o.getD "") ≠ "" := by
  cases o with
  | none => simp [missingOrEmpty] at h
  | some v =>
    simp only [missingOrEmpty, beq_eq_false_iff_ne, ne_eq] at h
    simpa using h

lemma firstMissing_eq_none {body : ReqBody}
    (h : ∀ f ∈ requiredFields, missingOrEmpty (getField body f) = false) :
    firstMissing body = none := by
  unfold firstMissing
  rw [List.find?_eq_none]
  intro f hf
  simp [h f hf]

lemma firstMissing_none_forall {body : ReqBody}
    (h : firstMissing body = none) :
    ∀ f ∈ requiredFields, missingOrEmpty (getField body f) = false := by
  intro f hf
  have h2 := List.find?_eq_none.1 (by unfold firstMissing at h; exact h) f hf
  simpa using h2

lemma log_progress_valid (body : ReqBody) (col : List ProgressDoc)
    (hfields : ∀ f ∈ requiredFields, missingOrEmpty (getField body f) = false)
    (hat : pyIn '@' (body.email.getD "") = true) :
    log_progress true body col = (⟨201, none⟩, col ++ [add_progress_row body]) := by
  unfold log_progress
  rw [firstMissing_eq_none hfields]
  simp [hat]

lemma truthyFilterEq (o : Option String) (b : String → Bool) :
    (if pyTruthy o then b (o.getD "") else true)
      = (match o with
          | none => true
          | some v => if v == "" then true else b v) := by
  cases o with
  | none => rfl
  | some v =>
    by_cases hv : v = ""
    · subst hv
      rfl
    · simp [pyTruthy, hv]

lemma clearStep_count (s : ClearState) (d : ProgressDoc) :
    (clearStep s d).count = s.count + 1 := by
  unfold clearStep
  split <;> rfl

lemma clearLoop_count (col : List ProgressDoc) :
    ∀ s : ClearState, (col.foldl clearStep s).count = s.count + col.length := by
  induction col with
  | nil => intro s; rfl
  | cons d rest ih =>
    intro s
    show (rest.foldl clearStep (clearStep s d)).count = s.count + (d :: rest).length
    rw [ih (clearStep s d), clearStep_count]
    simp [List.length_cons]
    omega

lemma clearStep_join (s : ClearState) (d : ProgressDoc) :
    (clearStep s d).committed.flatten ++ (clearStep s d).batch
      = s.committed.flatten ++ (s.batch ++ [d]) := by
  unfold clearStep
  split
  · simp
  · rfl

lemma clearLoop_join (col : List ProgressDoc) :
    ∀ s : ClearState,
      (col.foldl clearStep s).committed.flatten ++ (col.foldl clearStep s).batch
        = s.committed.flatten ++ s.batch ++ col := by
  induction col with
  | nil => intro s; simp
  | cons d rest ih =>
    intro s
    show (rest.foldl clearStep (clearStep s d)).committed.flatten
          ++ (rest.foldl clearStep (clearStep s d)).batch
        = s.committed.flatten ++ s.batch ++ (d :: rest)
    rw [ih (clearStep s d), clearStep_join]
    simp

lemma clearLoop_inv (col : List ProgressDoc) :
    ∀ s : ClearState,
      s.batch.length = s.count % 450 →
      (∀ b ∈ s.committed, b.length = 450) →
      (col.foldl clearStep s).batch.length = (col.foldl clearStep s).count % 450 ∧
        ∀ b ∈ (col.foldl clearStep s).committed, b.length = 450 := by
  induction col with
  | nil => intro s h1 h2; exact ⟨h1, h2⟩
  | cons d rest ih =>
    intro s h1 h2
    show (rest.foldl clearStep (clearStep s d)).batch.length
          = (rest.foldl clearStep (clearStep s d)).count % 450 ∧
        ∀ b ∈ (rest.foldl clearStep (clearStep s d)).committed, b.length = 450
    apply ih
    · unfold clearStep
      split
      · next hmod =>
        have h0 : (s.count + 1) % 450 = 0 := by simpa using hmod
        simp [h0]
      · next hmod =>
        have h0 : ¬ (s.count + 1) % 450 = 0 := by simpa using hmod
        simp only [List.length_append, List.length_cons, List.length_nil]
        omega
    · unfold clearStep
      split
      · next hmod =>
        intro b hb
        rcases List.mem_append.1 hb with hb | hb
        · exact h2 b hb
        · have hb' : b = s.batch ++ [d] := by simpa using hb
          have h0 : (s.count + 1) % 450 = 0 := by simpa using hmod
          rw [hb']
          simp only [List.length_append, List.length_cons, List.length_nil]
          omega
      · exact fun b hb => h2 b hb

/-- C2 (claim as stated) fails at an empty supplied filter value: with one
stored entry and `?email=` supplied as the empty string, the route returns
the entry although its normalized email does not equal the normalized
filter value, so the response is not "exactly the matching entries". -/
theorem get_logs_empty_value_cex :
    (get_logs_route [sampleDoc] (some "") none none).logs = [sampleDoc] ∧
    [sampleDoc].filter (claimMatches (some "") none none) = [] := by
  decide

/-- C2 (amended): `GET /logs` answers 200 with exactly the stored entries
whose normalized fields equal all supplied non-empty (normalized) filter
values — a filter supplied with an empty value applies no constraint —
with `total_count` the number of returned logs and `filters_applied`
echoing the supplied values. -/
theorem get_logs_route_filter_exact (col : List ProgressDoc)
    (email student_id week : Option String) :
    (get_logs_route col email student_id week).status = 200 ∧
    (get_logs_route col email student_id week).logs
      = col.filter (claimMatchesAmended email student_id week) ∧
    (get_logs_route col email student_id week).total_count
      = (get_logs_route col email student_id week).logs.length ∧
    (get_logs_route col email student_id week).filters_email = email ∧
    (get_logs_route col email student_id week).filters_student_id = student_id ∧
    (get_logs_route col email student_id week).filters_week = week := by
  refine ⟨rfl, ?_, rfl, rfl, rfl, rfl⟩
  show query_logs col email student_id week
      = col.filter (claimMatchesAmended email student_id week)
  unfold query_logs
  apply List.filter_congr
  intro d _
  show ((if pyTruthy email then d.email == pyLower (pyStrip (email.getD "")) else true) &&
      (if pyTruthy student_id then d.student_id == pyStrip (student_id.getD "") else true) &&
      (if pyTruthy week then d.week == pyLower (pyStrip (week.getD "")) else true))
    = claimMatchesAmended email student_id week d
  rw [truthyFilterEq email (fun v => d.email == pyLower (pyStrip v)),
    truthyFilterEq student_id (fun v => d.student_id == pyStrip v),
    truthyFilterEq week (fun v => d.week == pyLower (pyStrip v))]
  rfl

/-- C10: a filter parameter supplied with an empty value applies no
equality filter — the logs coincide with those of the same request without
that parameter — while `filters_applied` still echoes the empty value;
this holds for each of the three filterable fields. -/
theorem empty_filter_value_ignored (col : List ProgressDoc)
    (e s w : Option String) :
    ((get_logs_route col (some "") s w).logs = (get_logs_route col none s w).logs ∧
      (get_logs_route col (some "") s w).filters_email = some "") ∧
    ((get_logs_route col e (some "") w).logs = (get_logs_route col e none w).logs ∧
      (get_logs_route col e (some "") w).filters_student_id = some "") ∧
    ((get_logs_route col e s (some "")).logs = (get_logs_route col e s none).logs ∧
      (get_logs_route col e s (some "")).filters_week = some "") :=
  ⟨⟨rfl, rfl⟩, ⟨rfl, rfl⟩, ⟨rfl, rfl⟩⟩

/-- C6: when some required field is absent or empty (all whitespace), the
handler answers 400 with an error message naming a field that is indeed
missing or empty (the first such field of the `required` list). -/
theorem log_progress_missing_field (body : ReqBody) (col : List ProgressDoc)
    (h : ∃ f ∈ requiredFields, missingOrEmpty (getField body f) = true) :
    ∃ f ∈ requiredFields, missingOrEmpty (getField body f) = true ∧
      (log_progress true body col).1.status = 400 ∧
      (log_progress true body col).1.error
        = some ("Missing or empty required field: " ++ f) := by
  have hsome : (firstMissing body).isSome = true := by
    rcases h with ⟨f, hf, hm⟩
    cases hfm : firstMissing body with
    | none =>
      exact absurd hm (by simpa using List.find?_eq_none.1 hfm f hf)
    | some g => rfl
  obtain ⟨f0, hf0⟩ := Option.isSome_iff_exists.1 hsome
  have hf0' : requiredFields.find? (fun f => missingOrEmpty (getField body f)) = some f0 := by
    unfold firstMissing at hf0
    exact hf0
  have hp : missingOrEmpty (getField body f0) = true := by
    simpa using List.find?_some hf0'
  have hmem : f0 ∈ requiredFields := List.mem_of_find?_eq_some hf0' 
  have hlog : log_progress true body col
      = (⟨400, some ("Missing or empty required field: " ++ f0)⟩, col) := by
    unfold log_progress
    rw [hf0]
    rfl
  exact ⟨f0, hmem, hp, by rw [hlog], by rw [hlog]⟩

/-- Witness for the C6 theorem at a body whose `email` field is absent. -/
theorem log_progress_missing_field_witness :
    (∃ f ∈ requiredFields, missingOrEmpty (getField bodyMissing f) = true) ∧
    ∃ f ∈ requiredFields, missingOrEmpty (getField bodyMissing f) = true ∧
      (log_progress true bodyMissing []).1.status = 400 ∧
      (log_progress true bodyMissing []).1.error
        = some ("Missing or empty required field: " ++ f) :=
  ⟨by decide, log_progress_missing_field bodyMissing [] (by decide)⟩

/-- C7: when every required field is present and non-empty but the raw
email value contains no `@`, the handler answers 400 "Invalid email
format" and the collection is unchanged. -/
theorem log_progress_invalid_email (body : ReqBody) (col : List ProgressDoc)
    (hfields : ∀ f ∈ requiredFields, missingOrEmpty (getField body f) = false)
    (hat : pyIn '@' (body.email.getD "") = false) :
    (log_progress true body col).1.status = 400 ∧
    (log_progress true body col).1.error = some "Invalid email format" ∧
    (log_progress true body col).2 = col := by
  have hlog : log_progress true body col = (⟨400, some "Invalid email format"⟩, col) := by
    unfold log_progress
    rw [firstMissing_eq_none hfields]
    simp [hat]
  exact ⟨by rw [hlog], by rw [hlog], by rw [hlog]⟩

/-- Witness for the C7 theorem at a complete body with email `abc`. -/
theorem log_progress_invalid_email_witness :
    (∀ f ∈ requiredFields, missingOrEmpty (getField bodyNoAt f) = false) ∧
    (pyIn '@' (bodyNoAt.email.getD "") = false) ∧
    ((log_progress true bodyNoAt []).1.status = 400 ∧
      (log_progress true bodyNoAt []).1.error = some "Invalid email format" ∧
      (log_progress true bodyNoAt []).2 = []) :=
  ⟨by decide, by decide, log_progress_invalid_email bodyNoAt [] (by decide) (by decide)⟩

/-- C8: a request that passes the required-field and email checks is not
rejected for an unrecognized status: it still answers 201 and appends the
normalized entry (the status check at src/app.py:137-139 only logs a
warning). -/
theorem log_progress_nonstandard_status (body : ReqBody) (col : List ProgressDoc)
    (hfields : ∀ f ∈ requiredFields, missingOrEmpty (getField body f) = false)
    (hat : pyIn '@' (body.email.getD "") = true)
    (hstat : pyLower (pyStrip (body.status.getD "")) ∉ valid_statuses) :
    (log_progress true body col).1.status = 201 ∧
    (log_progress true body col).2 = col ++ [add_progress_row body] := by
  have hlog := log_progress_valid body col hfields hat
  exact ⟨by rw [hlog], by rw [hlog]⟩

/-- Witness for the C8 theorem at a valid body with status `WIP`. -/
theorem log_progress_nonstandard_status_witness :
    (∀ f ∈ requiredFields, missingOrEmpty (getField bodyWeird f) = false) ∧
    (pyIn '@' (bodyWeird.email.getD "") = true) ∧
    (pyLower (pyStrip (bodyWeird.status.getD "")) ∉ valid_statuses) ∧
    ((log_progress true bodyWeird []).1.status = 201 ∧
      (log_progress true bodyWeird []).2 = [add_progress_row bodyWeird]) :=
  ⟨by decide, by decide, by decide,
    log_progress_nonstandard_status bodyWeird [] (by decide) (by decide) (by decide)⟩

/-- C9: whenever `POST /log` answers 400 — non-JSON body, missing/empty
required field, or email without `@` — the collection is unchanged. -/
theorem log_progress_400_unchanged (isJson : Bool) (body : ReqBody)
    (col : List ProgressDoc)
    (h : (log_progress isJson body col).1.status = 400) :
    (log_progress isJson body col).2 = col := by
  by_cases hj : isJson = false
  · simp [log_progress, hj]
  · have hj' : isJson = true := by
      cases isJson
      · exact absurd rfl hj
      · rfl
    subst hj'
    cases hfm : firstMissing body with
    | some f => simp [log_progress, hfm]
    | none =>
      by_cases hc : pyIn '@' (body.email.getD "") = false
      · simp [log_progress, hfm, hc]
      · have hc' : pyIn '@' (body.email.getD "") = true := by
          cases hcc : pyIn '@' (body.email.getD "")
          · exact absurd hcc hc
          · rfl
        have hlog := log_progress_valid body col (firstMissing_none_forall hfm) hc'
        rw [hlog] at h
        simp at h

/-- Witness for the C9 theorem at a non-JSON request. -/
theorem log_progress_400_unchanged_witness :
    ((log_progress false sampleBody []).1.status = 400) ∧
    (log_progress false sampleBody []).2 = [] :=
  ⟨by decide, log_progress_400_unchanged false sampleBody [] (by decide)⟩

/-- C1 (claim as stated) fails for `student_id`, which is normalized
without case folding: a valid POST answers 201, and the three GET filter
values below all equal the posted values up to letter case and surrounding
whitespace, yet the query returns nothing because the stored
`Student ID` is `S1` while the filter is compared as `s1`. -/
theorem post_then_get_cex :
    (log_progress true sampleBody []).1.status = 201 ∧
    pyLower (pyStrip "a@b.c") = pyLower (pyStrip (sampleBody.email.getD "")) ∧
    pyLower (pyStrip "s1") = pyLower (pyStrip (sampleBody.student_id.getD "")) ∧
    pyLower (pyStrip "w1") = pyLower (pyStrip (sampleBody.week.getD "")) ∧
    (get_logs_route (log_progress true sampleBody []).2
      (some "a@b.c") (some "s1") (some "w1")).logs = [] := by
  decide

/-- C1 (amended): a POST whose six fields are non-empty after trimming and
whose email contains `@` answers 201, and a subsequent GET whose email and
week filter values equal the posted ones up to letter case and surrounding
whitespace, and whose student_id filter value equals the posted one up to
surrounding whitespace only (case-sensitively), returns the stored
entry. -/
theorem post_then_get (body : ReqBody) (col : List ProgressDoc)
    (hfields : ∀ f ∈ requiredFields, missingOrEmpty (getField body f) = false)
    (hat : pyIn '@' (body.email.getD "") = true)
    (fe fs fw : String)
    (he : pyLower (pyStrip fe) = pyLower (pyStrip (body.email.getD "")))
    (hs : pyStrip fs = pyStrip (body.student_id.getD ""))
    (hw : pyLower (pyStrip fw) = pyLower (pyStrip (body.week.getD ""))) :
    (log_progress true body col).1.status = 201 ∧
    add_progress_row body ∈
      (get_logs_route (log_progress true body col).2
        (some fe) (some fs) (some fw)).logs := by
  have hemail : pyStrip (body.email.getD "") ≠ "" :=
    missingOrEmpty_false_strip (hfields "email" (by decide))
  have hsid : pyStrip (body.student_id.getD "") ≠ "" :=
    missingOrEmpty_false_strip (hfields "student_id" (by decide))
  have hweek : pyStrip (body.week.getD "") ≠ "" :=
    missingOrEmpty_false_strip (hfields "week" (by decide))
  have hstrip0 : pyStrip "" = "" := by decide
  have hlow0 : pyLower (pyStrip "") = "" := by decide
  have hfe : fe ≠ "" := by
    intro h0
    subst h0
    exact hemail (pyLower_eq_empty (he.symm.trans hlow0))
  have hfs : fs ≠ "" := by
    intro h0
    subst h0
    exact hsid (hs.symm.trans hstrip0)
  have hfw : fw ≠ "" := by
    intro h0
    subst h0
    exact hweek (pyLower_eq_empty (hw.symm.trans hlow0))
  have hlog := log_progress_valid body col hfields hat
  refine ⟨by rw [hlog], ?_⟩
  rw [hlog]
  show add_progress_row body ∈
    query_logs (col ++ [add_progress_row body]) (some fe) (some fs) (some fw)
  have t1 : pyTruthy (some fe) = true := by simp [pyTruthy, hfe]
  have t2 : pyTruthy (some fs) = true := by simp [pyTruthy, hfs]
  have t3 : pyTruthy (some fw) = true := by simp [pyTruthy, hfw]
  unfold query_logs
  apply List.mem_filter.2
  refine ⟨List.mem_append_right col (List.mem_singleton_self _), ?_⟩
  simp [add_progress_row, t1, t2, t3, he, hs, hw]

/-- Witness for the C1 (amended) theorem: the sample body is posted and
retrieved with filters matching case-insensitively on email and week and
case-sensitively (whitespace apart) on student_id. -/
theorem post_then_get_witness :
    (∀ f ∈ requiredFields, missingOrEmpty (getField sampleBody f) = false) ∧
    (pyIn '@' (sampleBody.email.getD "") = true) ∧
    pyLower (pyStrip "a@b.c") = pyLower (pyStrip (sampleBody.email.getD "")) ∧
    pyStrip " S1 " = pyStrip (sampleBody.student_id.getD "") ∧
    pyLower (pyStrip "w1") = pyLower (pyStrip (sampleBody.week.getD "")) ∧
    ((log_progress true sampleBody []).1.status = 201 ∧
      add_progress_row sampleBody ∈
        (get_logs_route (log_progress true sampleBody []).2
          (some "a@b.c") (some " S1 ") (some "w1")).logs) :=
  ⟨by decide, by decide, by decide, by decide, by decide,
    post_then_get sampleBody [] (by decide) (by decide) "a@b.c" " S1 " "w1"
      (by decide) (by decide) (by decide)⟩

/-- C3 (claim as stated) fails at a present-but-empty key: `?key=` is a
present parameter whose value differs from the secret, yet the handler
answers 400 (Python truthiness lumps the empty string with absence), not
403. -/
theorem delete_logs_empty_key_cex :
    ((some "") ≠ (none : Option String)) ∧
    ("" ≠ DELETE_SECRET) ∧
    (delete_logs [sampleDoc] (some "")).1.status = 400 ∧
    ¬ (delete_logs [sampleDoc] (some "")).1.status = 403 := by
  decide

/-- C3 (amended): an absent or empty key answers 400 with nothing deleted;
a non-empty key differing from the secret answers 403 with nothing
deleted; the correct key answers 200 reporting a deleted count equal to
the number of documents in the collection. -/
theorem delete_logs_spec (col : List ProgressDoc) (key : Option String) :
    (pyTruthy key = false →
      (delete_logs col key).1.status = 400 ∧ (delete_logs col key).2 = col) ∧
    (∀ k, key = some k → k ≠ "" → k ≠ DELETE_SECRET →
      (delete_logs col key).1.status = 403 ∧
        (delete_logs col key).1.deleted = none ∧
        (delete_logs col key).2 = col) ∧
    (key = some DELETE_SECRET →
      (delete_logs col key).1.status = 200 ∧
        (delete_logs col key).1.deleted = some col.length) := by
  refine ⟨?_, ?_, ?_⟩
  · intro h
    simp [delete_logs, h]
  · intro k hk hne hnsec
    subst hk
    have ht : pyTruthy (some k) = true := by simp [pyTruthy, hne]
    have hb : (k == DELETE_SECRET) = false := beq_eq_false_iff_ne.mpr hnsec
    simp [delete_logs, ht, hb]
  · intro hk
    subst hk
    have ht : pyTruthy (some DELETE_SECRET) = true := by decide
    have hb : ((some DELETE_SECRET).getD "" == DELETE_SECRET) = true := by decide
    have hcount : (clear_all_logs col).2 = col.length := by
      show (col.foldl clearStep ⟨[], [], 0⟩).count = col.length
      rw [clearLoop_count]
      exact Nat.zero_add _
    simp [delete_logs, ht, hb, hcount]

/-- Witness for the C3 (amended) theorem in its correct-key case. -/
theorem delete_logs_spec_witness :
    (delete_logs [sampleDoc] (some DELETE_SECRET)).1.status = 200 ∧
    (delete_logs [sampleDoc] (some DELETE_SECRET)).1.deleted = some 1 := by
  have h := (delete_logs_spec [sampleDoc] (some DELETE_SECRET)).2.2 rfl
  exact ⟨h.1, h.2⟩

/-- C4: with the correct key, the delete answers 200, the committed
batches jointly stage a delete for every document that was in the
collection (their concatenation is the whole collection), the collection
is empty afterwards, and a subsequent GET with no filters returns an empty
list with `total_count` 0. -/
theorem delete_correct_key_clears_all (col : List ProgressDoc) :
    (delete_logs col (some DELETE_SECRET)).1.status = 200 ∧
    (clear_all_logs col).1.flatten = col ∧
    (delete_logs col (some DELETE_SECRET)).2 = [] ∧
    (get_logs_route (delete_logs col (some DELETE_SECRET)).2 none none none).logs = [] ∧
    (get_logs_route (delete_logs col (some DELETE_SECRET)).2 none none none).total_count
      = 0 := by
  have ht : pyTruthy (some DELETE_SECRET) = true := by decide
  have hb : ((some DELETE_SECRET).getD "" == DELETE_SECRET) = true := by decide
  have hd : delete_logs col (some DELETE_SECRET)
      = (⟨200, none, some (clear_all_logs col).2⟩, []) := by
    simp [delete_logs, ht, hb]
  have hj := clearLoop_join col ⟨[], [], 0⟩
  have hflat : (clear_all_logs col).1.flatten = col := by
    show ((col.foldl clearStep ⟨[], [], 0⟩).committed
        ++ [(col.foldl clearStep ⟨[], [], 0⟩).batch]).flatten = col
    rw [List.flatten_append]
    simpa using hj
  exact ⟨by rw [hd], hflat, by rw [hd], by rw [hd]; rfl, by rw [hd]; rfl⟩

/-- C5 (claim as stated) fails: streaming 446 documents never reaches the
450-boundary, so the final commit carries a single batch of 446 staged
deletes, more than 445. -/
theorem clear_batch_445_cex :
    ¬ ∀ b ∈ (clear_all_logs (List.replicate 446 sampleDoc)).1, b.length ≤ 445 := by
  intro hall
  have hinv := clearLoop_inv (List.replicate 446 sampleDoc) ⟨[], [], 0⟩ rfl
    (by intro x hx; exact absurd hx (List.not_mem_nil x))
  have hcnt := clearLoop_count (List.replicate 446 sampleDoc) ⟨[], [], 0⟩
  have hmem : ((List.replicate 446 sampleDoc).foldl clearStep ⟨[], [], 0⟩).batch
      ∈ (clear_all_logs (List.replicate 446 sampleDoc)).1 :=
    List.mem_append_right _ (List.mem_singleton_self _)
  have hle := hall _ hmem
  rw [hinv.1, hcnt] at hle
  have hlen : (List.replicate 446 sampleDoc).length = 446 := List.length_replicate 446 sampleDoc
  have hc0 : (ClearState.mk [] [] 0).count = 0 := rfl
  rw [hlen, hc0] at hle
  omega

/-- C5 (amended): every batch committed by the clear-all loop — the full
batches committed inside the loop and the final one committed after it —
contains at most 450 delete operations. -/
theorem clear_all_logs_batch_le (col : List ProgressDoc) (b : List ProgressDoc)
    (hb : b ∈ (clear_all_logs col).1) : b.length ≤ 450 := by
  have hinv := clearLoop_inv col ⟨[], [], 0⟩ rfl
    (by intro x hx; exact absurd hx (List.not_mem_nil x))
  have hb' : b ∈ (col.foldl clearStep ⟨[], [], 0⟩).committed
      ++ [(col.foldl clearStep ⟨[], [], 0⟩).batch] := hb
  rcases List.mem_append.1 hb' with h | h
  · rw [hinv.2 b h]
  · have hbb : b = (col.foldl clearStep ⟨[], [], 0⟩).batch := by simpa using h
    rw [hbb, hinv.1]
    omega

/-- Witness for the C5 (amended) theorem at a one-document collection. -/
theorem clear_all_logs_batch_le_witness :
    ([sampleDoc] ∈ (clear_all_logs [sampleDoc]).1) ∧
    ([sampleDoc] : List ProgressDoc).length ≤ 450 :=
  ⟨by decide, clear_all_logs_batch_le [sampleDoc] [sampleDoc] (by decide)⟩
